import Mathlib

/-!
Verification development for the tip-calculator component.

The source is a React component whose numeric core is a handful of pure
functions over JavaScript numbers.  We embed that core shallowly over the
exact rationals: every JavaScript number is modelled as a rational, so
the arithmetic identities below are exact statements of the intent of the
floating-point code (no overflow to Infinity and no rounding of literals
is modelled).  Fallible parsing is modelled with Option, where a result of
Option.none stands for a non-finite JavaScript number (NaN or Infinity);
this is faithful because every use of the string-to-number conversion in
the source immediately filters through Number.isFinite.
-/

namespace TipCalc

/-- JavaScript whitespace and line terminators trimmed by the string
to number conversion (the common code points). -/
def isJsWs (c : Char) : Bool :=
  c = ' ' || c = '\t' || c = '\n' || c = '\r' ||
  c = '\x0b' || c = '\x0c' || c = '\u00a0' ||
  c = '\u2028' || c = '\u2029' || c = '\ufeff'

/-- Value of a string of decimal digit characters. -/
def digitsToNat (l : List Char) : Nat :=
  l.foldl (fun n c => 10 * n + (c.toNat - 48)) 0

/-- Whether a character is a hexadecimal digit. -/
def isHexDigitCh (c : Char) : Bool :=
  c.isDigit || ('a' ≤ c && c ≤ 'f') || ('A' ≤ c && c ≤ 'F')

/-- Value of a hexadecimal digit character (meaningful on hex digits). -/
def hexDigitVal (c : Char) : Nat :=
  if c.isDigit then c.toNat - 48
  else if 'a' ≤ c && c ≤ 'f' then c.toNat - 87
  else c.toNat - 55

/-- Whether a character is a digit in base b (b at most 16). -/
def isRadixDigit (b : Nat) (c : Char) : Bool :=
  isHexDigitCh c && hexDigitVal c < b

/-- Value of a digit string in base b. -/
def radixToNat (b : Nat) (l : List Char) : Nat :=
  l.foldl (fun n c => b * n + hexDigitVal c) 0

/-- Non-decimal integer literal body (after 0x, 0o or 0b):
nonempty and all digits of the base, as in the JavaScript grammar. -/
def parseRadix (b : Nat) (l : List Char) : Option ℚ :=
  if l.isEmpty then none
  else if l.all (isRadixDigit b) then some ((radixToNat b l : Nat) : ℚ)
  else none

/-- Exponent body of a decimal literal: optional sign then digits;
scales the mantissa by the corresponding power of ten. -/
def parseExpTail (m : ℚ) : List Char → Option ℚ
  | '+' :: r =>
      if !r.isEmpty && r.all Char.isDigit then some (m * (10 : ℚ) ^ digitsToNat r) else none
  | '-' :: r =>
      if !r.isEmpty && r.all Char.isDigit then some (m / (10 : ℚ) ^ digitsToNat r) else none
  | r =>
      if !r.isEmpty && r.all Char.isDigit then some (m * (10 : ℚ) ^ digitsToNat r) else none

/-- What may follow the mantissa of a decimal literal: nothing, or an
exponent marker and exponent body. -/
def parseTail (m : ℚ) : List Char → Option ℚ
  | [] => some m
  | 'e' :: r => parseExpTail m r
  | 'E' :: r => parseExpTail m r
  | _ => none

/-- Unsigned decimal literal: digits, an optional point with optional
fractional digits (at least one digit in total), optional exponent. -/
def parseUnsigned (l : List Char) : Option ℚ :=
  let ds := l.takeWhile Char.isDigit
  let r1 := l.drop ds.length
  match r1 with
  | '.' :: r2 =>
      let fs := r2.takeWhile Char.isDigit
      let r3 := r2.drop fs.length
      if ds.isEmpty && fs.isEmpty then none
      else parseTail ((digitsToNat ds : ℚ) + (digitsToNat fs : ℚ) / (10 : ℚ) ^ fs.length) r3
  | _ => if ds.isEmpty then none else parseTail ((digitsToNat ds : ℚ)) r1

/-- The literal word Infinity, which converts to a non-finite number. -/
def infinityChars : List Char := ['I', 'n', 'f', 'i', 'n', 'i', 't', 'y']

/-- Signed decimal literal; the Infinity word yields a non-finite value,
modelled as none. -/
def parseSigned : List Char → Option ℚ
  | '+' :: r => if r = infinityChars then none else parseUnsigned r
  | '-' :: r => if r = infinityChars then none else (parseUnsigned r).map Neg.neg
  | l => if l = infinityChars then none else parseUnsigned l

/-- Model of the JavaScript Number(string) conversion restricted to finite
results: whitespace is trimmed, the empty remainder is 0, hex, octal and
binary literals are unsigned, otherwise a signed decimal literal with
optional exponent; NaN and Infinity are both modelled as none (every use
in the source filters the result through Number.isFinite). -/
def jsNumber (s : String) : Option ℚ :=
  let t := ((s.toList.dropWhile isJsWs).reverse.dropWhile isJsWs).reverse
  match t with
  | [] => some 0
  | '0' :: c :: r =>
      if c = 'x' || c = 'X' then parseRadix 16 r
      else if c = 'o' || c = 'O' then parseRadix 8 r
      else if c = 'b' || c = 'B' then parseRadix 2 r
      else parseSigned t
  | _ => parseSigned t

/-- The character filter of parseToNumber in the source: the regular
expression replace keeps digits, periods and minus signs, everywhere in
the string, and deletes everything else. -/
def cleanChars (v : String) : String :=
  String.mk (v.toList.filter fun c => c.isDigit || c = '.' || c = '-')

/-- Source parseToNumber (both copies, lines 202 to 207 and 540 to 545):
empty input is 0; otherwise strip to digits, periods and minus signs,
convert with Number, and replace any non-finite result by 0. -/
def parseToNumber (v : String) : ℚ :=
  if v = "" then 0
  else
    match jsNumber (cleanChars v) with
    | some n => n
    | none => 0

/-- Source safeNumber (lines 209 to 212 and 551 to 554): convert the raw
text with Number and replace any non-finite result by the fallback. -/
def safeNumber (v : String) (fallback : ℚ) : ℚ :=
  match jsNumber v with
  | some n => n
  | none => fallback

/-- Property names every plain object literal inherits from
Object.prototype, so that indexing the literal with one of them yields
the inherited method (or, for the last entry, the prototype object)
rather than undefined. -/
def objectProtoProps : List String :=
  ["constructor", "hasOwnProperty", "isPrototypeOf", "propertyIsEnumerable",
   "toLocaleString", "toString", "valueOf", "__defineGetter__", "__defineSetter__",
   "__lookupGetter__", "__lookupSetter__", "__proto__"]

/-- Result of a JavaScript member lookup on a plain object literal of
string values: an own property yields its string value, an
Object.prototype property name yields the inherited function or object
(tagged here by its name), and any other key yields undefined. -/
inductive JsLookup
  | str (s : String)
  | inherited (name : String)
  | undef
deriving DecidableEq

/-- The member lookup map[locale] on the object literal of guessCurrency
(lines 215 to 219 and 561 to 575): the thirteen own keys first, then the
Object.prototype chain, then undefined. -/
def currencyMapLookup (locale : String) : JsLookup :=
  if locale = "en-US" then JsLookup.str "USD"
  else if locale = "en-GB" then JsLookup.str "GBP"
  else if locale = "en-CA" then JsLookup.str "CAD"
  else if locale = "fr-CA" then JsLookup.str "CAD"
  else if locale = "en-AU" then JsLookup.str "AUD"
  else if locale = "en-NZ" then JsLookup.str "NZD"
  else if locale = "en-IN" then JsLookup.str "INR"
  else if locale = "hi-IN" then JsLookup.str "INR"
  else if locale = "ja-JP" then JsLookup.str "JPY"
  else if locale = "de-DE" then JsLookup.str "EUR"
  else if locale = "fr-FR" then JsLookup.str "EUR"
  else if locale = "es-ES" then JsLookup.str "EUR"
  else if locale = "it-IT" then JsLookup.str "EUR"
  else if locale ∈ objectProtoProps then JsLookup.inherited locale
  else JsLookup.undef

/-- JavaScript truthiness of a lookup result: undefined and the empty
string are falsy; every non-empty string, function and object is truthy. -/
def jsTruthyLookup : JsLookup → Bool
  | JsLookup.str s => s ≠ ""
  | JsLookup.inherited _ => true
  | JsLookup.undef => false

/-- Source guessCurrency (lines 214 to 221 and 560 to 577): the
expression map[locale] || the string USD — the lookup value when it is
truthy (an own currency code, or a value inherited from
Object.prototype), and the string USD otherwise. -/
def guessCurrency (locale : String) : JsLookup :=
  if jsTruthyLookup (currencyMapLookup locale) then currencyMapLookup locale
  else JsLookup.str "USD"

/-- The four rounding modes of the component, with the identifiers of the
source. -/
inductive RoundingMode
  | none
  | tip
  | total
  | perPerson
deriving DecidableEq

/-- The inputs of one computation pass: the raw bill text, the two
percentages, the people number, the tax-in-tip checkbox and the selected
rounding mode. -/
structure Inputs where
  bill : String
  taxPercent : ℚ
  tipPercent : ℚ
  people : ℚ
  includeTaxInTip : Bool
  rounding : RoundingMode

/-- The reconciled outputs of the switch at lines 49 to 72. -/
structure Outputs where
  tip : ℚ
  total : ℚ
  perPerson : ℚ
deriving DecidableEq

/-- JavaScript or-with-default on a number: 0 (the only falsy rational)
selects the right operand, as in the expression people or 1 of line 46. -/
def jsOr (a b : ℚ) : ℚ := if a = 0 then b else a

/-- Model of JavaScript Math.round: the floor of the argument plus one
half, which is the nearest integer with ties going toward positive
infinity. -/
def jsRound (q : ℚ) : ℤ := ⌊q + 1 / 2⌋

/-- Line 41: the bill amount parsed from the raw text. -/
def numBill (i : Inputs) : ℚ := parseToNumber i.bill

/-- Line 42: tax clamped below at 0 (first version of the component). -/
def tax (i : Inputs) : ℚ := max 0 (numBill i * (i.taxPercent / 100))

/-- Line 43: the base the tip percentage applies to. -/
def tipBase (i : Inputs) : ℚ :=
  if i.includeTaxInTip then numBill i + tax i else numBill i

/-- Line 44: raw tip clamped below at 0 (first version). -/
def rawTip (i : Inputs) : ℚ := max 0 (tipBase i * (i.tipPercent / 100))

/-- Line 45: the raw total before any rounding. -/
def rawTotal (i : Inputs) : ℚ := numBill i + tax i + rawTip i

/-- Line 46 as a function of the people number alone:
max of 1 and the floor of (people or 1). -/
def safePeopleOf (p : ℚ) : ℤ := max 1 ⌊jsOr p 1⌋

/-- Line 46: the people count actually used by the split. -/
def safePeople (i : Inputs) : ℤ := safePeopleOf i.people

/-- Line 47: the raw per-person share. -/
def rawPerPerson (i : Inputs) : ℚ := rawTotal i / (safePeople i : ℚ)

/-- The rounding-reconciliation switch of lines 49 to 72 (first version):
exactly one branch applies, selected by the rounding mode. -/
def roundedOutputs (i : Inputs) : Outputs :=
  match i.rounding with
  | RoundingMode.none =>
      { tip := rawTip i, total := rawTotal i, perPerson := rawPerPerson i }
  | RoundingMode.tip =>
      let t : ℚ := (jsRound (rawTip i) : ℤ)
      { tip := t, total := numBill i + tax i + t,
        perPerson := (numBill i + tax i + t) / (safePeople i : ℚ) }
  | RoundingMode.total =>
      let tt : ℚ := (jsRound (rawTotal i) : ℤ)
      { tip := max 0 (tt - (numBill i + tax i)), total := tt,
        perPerson := tt / (safePeople i : ℚ) }
  | RoundingMode.perPerson =>
      let pp : ℚ := (jsRound (rawPerPerson i) : ℤ)
      { tip := max 0 (pp * (safePeople i : ℚ) - (numBill i + tax i)),
        total := pp * (safePeople i : ℚ), perPerson := pp }

/-- Line 74: the tip re-expressed as a percentage of the tip base, with a
guard for an empty base. -/
def effectiveTipPercent (i : Inputs) : ℚ :=
  if 0 < tipBase i then (roundedOutputs i).tip / tipBase i * 100 else 0

/-- Source clamp (lines 547 to 549, second version of the component). -/
def clamp (n lo hi : ℚ) : ℚ := min (max n lo) hi

/-- The JavaScript constant Number.MAX_SAFE_INTEGER. -/
def maxSafeInteger : ℚ := 9007199254740991

/-- Line 263: tax of the second version, clamped into
[0, Number.MAX_SAFE_INTEGER]. -/
def tax2 (i : Inputs) : ℚ := clamp (numBill i * (i.taxPercent / 100)) 0 maxSafeInteger

/-- Line 264: tip base of the second version. -/
def tipBase2 (i : Inputs) : ℚ :=
  if i.includeTaxInTip then numBill i + tax2 i else numBill i

/-- Line 265: raw tip of the second version, clamped into
[0, Number.MAX_SAFE_INTEGER]. -/
def rawTip2 (i : Inputs) : ℚ := clamp (tipBase2 i * (i.tipPercent / 100)) 0 maxSafeInteger

/-- Line 266: raw total of the second version. -/
def rawTotal2 (i : Inputs) : ℚ := numBill i + tax2 i + rawTip2 i

/-- Line 268: raw per-person share of the second version. -/
def rawPerPerson2 (i : Inputs) : ℚ := rawTotal2 i / (safePeople i : ℚ)

/-- The rounding-reconciliation switch of lines 270 to 299 (second
version). -/
def roundedOutputs2 (i : Inputs) : Outputs :=
  match i.rounding with
  | RoundingMode.none =>
      { tip := rawTip2 i, total := rawTotal2 i, perPerson := rawPerPerson2 i }
  | RoundingMode.tip =>
      let t : ℚ := (jsRound (rawTip2 i) : ℤ)
      { tip := t, total := numBill i + tax2 i + t,
        perPerson := (numBill i + tax2 i + t) / (safePeople i : ℚ) }
  | RoundingMode.total =>
      let tt : ℚ := (jsRound (rawTotal2 i) : ℤ)
      { tip := max 0 (tt - (numBill i + tax2 i)), total := tt,
        perPerson := tt / (safePeople i : ℚ) }
  | RoundingMode.perPerson =>
      let pp : ℚ := (jsRound (rawPerPerson2 i) : ℤ)
      { tip := max 0 (pp * (safePeople i : ℚ) - (numBill i + tax2 i)),
        total := pp * (safePeople i : ℚ), perPerson := pp }

/-- Line 301: effective tip percentage of the second version. -/
def effectiveTipPercent2 (i : Inputs) : ℚ :=
  if 0 < tipBase2 i then (roundedOutputs2 i).tip / tipBase2 i * 100 else 0

/-- Modelled from the spec: the round-half-away-from-zero function the
claim describes — the nearest integer, with ties at one half going away
from zero (spec-side definition, for comparison with jsRound). -/
def roundHalfAway (q : ℚ) : ℤ := if 0 ≤ q then ⌊q + 1 / 2⌋ else -⌊-q + 1 / 2⌋

/-- Modelled from the spec (amended claim): sanitize by keeping every
digit, minus sign and period occurrence in place, convert the remainder
with Number, and resolve any non-finite result to 0. -/
def specParseAmended (v : String) : ℚ :=
  (jsNumber (String.mk (v.toList.filter fun c : Char => c = '-' || c = '.' || c.isDigit))).getD 0

/-- Modelled from the spec: the sanitization exactly as the claim words
it — strip all characters except digits, a single leading minus, and a
decimal point — then convert, any non-finite result resolving to 0. -/
def specParseClaim (v : String) : ℚ :=
  let kept := v.toList.filter fun c : Char => c.isDigit || c = '.'
  let s := match v.toList with
    | '-' :: _ => '-' :: kept
    | _ => kept
  (jsNumber (String.mk s)).getD 0

/-! ## Helper lemmas -/

lemma one_le_safePeopleOf (p : ℚ) : 1 ≤ safePeopleOf p :=
  le_max_left _ _

lemma safePeople_cast_pos (i : Inputs) : (0 : ℚ) < (safePeople i : ℚ) := by
  have h : (1 : ℤ) ≤ safePeople i := one_le_safePeopleOf _
  have h2 : (1 : ℚ) ≤ (safePeople i : ℚ) := by exact_mod_cast h
  linarith

lemma tax_nonneg (i : Inputs) : 0 ≤ tax i := le_max_left _ _

lemma rawTip_nonneg (i : Inputs) : 0 ≤ rawTip i := le_max_left _ _

lemma jsRound_nonneg (q : ℚ) (h : 0 ≤ q) : 0 ≤ jsRound q := by
  unfold jsRound
  exact Int.le_floor.mpr (by push_cast; linarith)

lemma jsRound_eq_of (q : ℚ) (n : ℤ) (h1 : (n : ℚ) ≤ q + 1 / 2) (h2 : q + 1 / 2 < n + 1) :
    jsRound q = n := by
  unfold jsRound
  exact Int.floor_eq_iff.mpr ⟨h1, h2⟩

/-! ## Claims -/

/-- Claim C2: for every input with rounding mode perPerson, the output
perPerson is a whole number, total equals perPerson times the people
count exactly, and tip is the clamp at 0 of total minus bill minus tax. -/
theorem perPerson_mode_spec (i : Inputs) (h : i.rounding = RoundingMode.perPerson) :
    (∃ n : ℤ, (roundedOutputs i).perPerson = (n : ℚ)) ∧
    (roundedOutputs i).total = (roundedOutputs i).perPerson * (safePeople i : ℚ) ∧
    (roundedOutputs i).tip = max 0 ((roundedOutputs i).total - numBill i - tax i) := by
  simp only [roundedOutputs, h, sub_sub, eq_self_iff_true, and_true, true_and]
  exact ⟨jsRound (rawPerPerson i), rfl⟩

/-- Witness for perPerson_mode_spec at the spec scenario bill 50,
tip 18 percent, 3 people. -/
theorem perPerson_mode_spec_witness :
    (∃ n : ℤ,
      (roundedOutputs ⟨"50", 0, 18, 3, false, RoundingMode.perPerson⟩).perPerson = (n : ℚ)) ∧
    (roundedOutputs ⟨"50", 0, 18, 3, false, RoundingMode.perPerson⟩).total =
      (roundedOutputs ⟨"50", 0, 18, 3, false, RoundingMode.perPerson⟩).perPerson *
        (safePeople ⟨"50", 0, 18, 3, false, RoundingMode.perPerson⟩ : ℚ) ∧
    (roundedOutputs ⟨"50", 0, 18, 3, false, RoundingMode.perPerson⟩).tip =
      max 0 ((roundedOutputs ⟨"50", 0, 18, 3, false, RoundingMode.perPerson⟩).total -
        numBill ⟨"50", 0, 18, 3, false, RoundingMode.perPerson⟩ -
        tax ⟨"50", 0, 18, 3, false, RoundingMode.perPerson⟩) :=
  perPerson_mode_spec ⟨"50", 0, 18, 3, false, RoundingMode.perPerson⟩ rfl

/-- Claim C3: for every input with rounding mode tip, the output tip is a
whole number (the round of the raw tip), total equals bill plus tax plus
tip, and perPerson equals total divided by the people count. -/
theorem tip_mode_spec (i : Inputs) (h : i.rounding = RoundingMode.tip) :
    (roundedOutputs i).tip = (jsRound (rawTip i) : ℚ) ∧
    (∃ n : ℤ, (roundedOutputs i).tip = (n : ℚ)) ∧
    (roundedOutputs i).total = numBill i + tax i + (roundedOutputs i).tip ∧
    (roundedOutputs i).perPerson = (roundedOutputs i).total / (safePeople i : ℚ) := by
  simp only [roundedOutputs, h, eq_self_iff_true, and_true, true_and]
  exact ⟨jsRound (rawTip i), rfl⟩

/-- Witness for tip_mode_spec at the scenario bill 100, tax 10 percent,
tip 20 percent, 4 people. -/
theorem tip_mode_spec_witness :
    (roundedOutputs ⟨"100", 10, 20, 4, false, RoundingMode.tip⟩).tip =
      (jsRound (rawTip ⟨"100", 10, 20, 4, false, RoundingMode.tip⟩) : ℚ) ∧
    (∃ n : ℤ, (roundedOutputs ⟨"100", 10, 20, 4, false, RoundingMode.tip⟩).tip = (n : ℚ)) ∧
    (roundedOutputs ⟨"100", 10, 20, 4, false, RoundingMode.tip⟩).total =
      numBill ⟨"100", 10, 20, 4, false, RoundingMode.tip⟩ +
        tax ⟨"100", 10, 20, 4, false, RoundingMode.tip⟩ +
        (roundedOutputs ⟨"100", 10, 20, 4, false, RoundingMode.tip⟩).tip ∧
    (roundedOutputs ⟨"100", 10, 20, 4, false, RoundingMode.tip⟩).perPerson =
      (roundedOutputs ⟨"100", 10, 20, 4, false, RoundingMode.tip⟩).total /
        (safePeople ⟨"100", 10, 20, 4, false, RoundingMode.tip⟩ : ℚ) :=
  tip_mode_spec ⟨"100", 10, 20, 4, false, RoundingMode.tip⟩ rfl

/-- Claim C1 counterexample: at bill text 1.2, both percentages 0, one
person and rounding mode total, the displayed total is 1 while bill plus
tax plus tip is 1.2, so the accounting identity fails by 0.2. -/
theorem total_identity_cex :
    (roundedOutputs ⟨"1.2", 0, 0, 1, false, RoundingMode.total⟩).total = 1 ∧
    numBill ⟨"1.2", 0, 0, 1, false, RoundingMode.total⟩ +
      tax ⟨"1.2", 0, 0, 1, false, RoundingMode.total⟩ +
      (roundedOutputs ⟨"1.2", 0, 0, 1, false, RoundingMode.total⟩).tip = 6 / 5 ∧
    (roundedOutputs ⟨"1.2", 0, 0, 1, false, RoundingMode.total⟩).total ≠
      numBill ⟨"1.2", 0, 0, 1, false, RoundingMode.total⟩ +
        tax ⟨"1.2", 0, 0, 1, false, RoundingMode.total⟩ +
        (roundedOutputs ⟨"1.2", 0, 0, 1, false, RoundingMode.total⟩).tip := by
  have hb : numBill ⟨"1.2", 0, 0, 1, false, RoundingMode.total⟩ = 6 / 5 := by
    simp +decide [numBill, parseToNumber, cleanChars, jsNumber, parseSigned, parseUnsigned,
      parseTail, digitsToNat, isJsWs, infinityChars]
    norm_num
  have htax : tax ⟨"1.2", 0, 0, 1, false, RoundingMode.total⟩ = 0 := by
    simp [tax, hb]
  have hraw : rawTotal ⟨"1.2", 0, 0, 1, false, RoundingMode.total⟩ = 6 / 5 := by
    simp [rawTotal, rawTip, tipBase, hb, htax]
  have hr : jsRound ((6 : ℚ) / 5) = 1 := jsRound_eq_of _ 1 (by norm_num) (by norm_num)
  have h1 : (roundedOutputs ⟨"1.2", 0, 0, 1, false, RoundingMode.total⟩).total = 1 := by
    simp [roundedOutputs, hraw, hr]
  have h2 : numBill ⟨"1.2", 0, 0, 1, false, RoundingMode.total⟩ +
      tax ⟨"1.2", 0, 0, 1, false, RoundingMode.total⟩ +
      (roundedOutputs ⟨"1.2", 0, 0, 1, false, RoundingMode.total⟩).tip = 6 / 5 := by
    simp [roundedOutputs, hraw, hr, hb, htax]
    norm_num [max_def]
  exact ⟨h1, h2, by rw [h1, h2]; norm_num⟩

/-- Claim C1 (amended): the displayed outputs satisfy total = bill + tax
+ tip in rounding modes none and tip unconditionally, and in modes total
and perPerson whenever the reconciled total is at least bill plus tax;
when it is smaller the tip clamps to 0 and the identity fails, as in the
counterexample. -/
theorem total_identity_amended (i : Inputs)
    (h : i.rounding = RoundingMode.none ∨ i.rounding = RoundingMode.tip ∨
      numBill i + tax i ≤ (roundedOutputs i).total) :
    (roundedOutputs i).total = numBill i + tax i + (roundedOutputs i).tip := by
  cases hr : i.rounding with
  | none => simp only [roundedOutputs, hr, rawTotal]
  | tip => simp only [roundedOutputs, hr]
  | total =>
      rcases h with h | h | h
      · rw [hr] at h; simp at h
      · rw [hr] at h; simp at h
      · simp only [roundedOutputs, hr] at h ⊢
        rw [max_eq_right (sub_nonneg.mpr h)]
        ring
  | perPerson =>
      rcases h with h | h | h
      · rw [hr] at h; simp at h
      · rw [hr] at h; simp at h
      · simp only [roundedOutputs, hr] at h ⊢
        rw [max_eq_right (sub_nonneg.mpr h)]
        ring

/-- Witness for total_identity_amended at the scenario bill 100, tax 10
percent, tip 20 percent, 4 people, no rounding. -/
theorem total_identity_amended_witness :
    ((⟨"100", 10, 20, 4, false, RoundingMode.none⟩ : Inputs).rounding = RoundingMode.none ∨
      (⟨"100", 10, 20, 4, false, RoundingMode.none⟩ : Inputs).rounding = RoundingMode.tip ∨
      numBill ⟨"100", 10, 20, 4, false, RoundingMode.none⟩ +
        tax ⟨"100", 10, 20, 4, false, RoundingMode.none⟩ ≤
        (roundedOutputs ⟨"100", 10, 20, 4, false, RoundingMode.none⟩).total) ∧
    (roundedOutputs ⟨"100", 10, 20, 4, false, RoundingMode.none⟩).total =
      numBill ⟨"100", 10, 20, 4, false, RoundingMode.none⟩ +
        tax ⟨"100", 10, 20, 4, false, RoundingMode.none⟩ +
        (roundedOutputs ⟨"100", 10, 20, 4, false, RoundingMode.none⟩).tip :=
  ⟨Or.inl rfl, total_identity_amended ⟨"100", 10, 20, 4, false, RoundingMode.none⟩ (Or.inl rfl)⟩

/-- Claim C4 counterexample: the bill text -5 parses to the negative
number -5, and with no rounding the displayed total and per-person share
are both -5, which is negative. -/
theorem outputs_nonneg_cex :
    (roundedOutputs ⟨"-5", 0, 0, 1, false, RoundingMode.none⟩).total = -5 ∧
    ¬ 0 ≤ (roundedOutputs ⟨"-5", 0, 0, 1, false, RoundingMode.none⟩).total ∧
    (roundedOutputs ⟨"-5", 0, 0, 1, false, RoundingMode.none⟩).perPerson = -5 ∧
    ¬ 0 ≤ (roundedOutputs ⟨"-5", 0, 0, 1, false, RoundingMode.none⟩).perPerson := by
  have hb : numBill ⟨"-5", 0, 0, 1, false, RoundingMode.none⟩ = -5 := by decide
  have htax : tax ⟨"-5", 0, 0, 1, false, RoundingMode.none⟩ = 0 := by
    simp [tax, hb]
  have hraw : rawTotal ⟨"-5", 0, 0, 1, false, RoundingMode.none⟩ = -5 := by
    simp [rawTotal, rawTip, tipBase, hb, htax]
  have hsp : safePeople ⟨"-5", 0, 0, 1, false, RoundingMode.none⟩ = 1 := by
    simp [safePeople, safePeopleOf, jsOr]
  have h1 : (roundedOutputs ⟨"-5", 0, 0, 1, false, RoundingMode.none⟩).total = -5 := by
    simp [roundedOutputs, hraw]
  have h2 : (roundedOutputs ⟨"-5", 0, 0, 1, false, RoundingMode.none⟩).perPerson = -5 := by
    simp [roundedOutputs, rawPerPerson, hraw, hsp]
  exact ⟨h1, by rw [h1]; norm_num, h2, by rw [h2]; norm_num⟩

lemma tip_nonneg (j : Inputs) : 0 ≤ (roundedOutputs j).tip := by
  cases hr : j.rounding <;> simp only [roundedOutputs, hr]
  · exact rawTip_nonneg j
  · exact_mod_cast jsRound_nonneg _ (rawTip_nonneg j)
  · exact le_max_left _ _
  · exact le_max_left _ _

lemma outputs_nonneg_of_bill (i : Inputs) (h : 0 ≤ numBill i) :
    0 ≤ tax i ∧ 0 ≤ (roundedOutputs i).tip ∧ 0 ≤ (roundedOutputs i).total ∧
      0 ≤ (roundedOutputs i).perPerson := by
  have htax := tax_nonneg i
  have htip := rawTip_nonneg i
  have htot : 0 ≤ rawTotal i := by unfold rawTotal; linarith
  have hsp := safePeople_cast_pos i
  have hpp : 0 ≤ rawPerPerson i := div_nonneg htot hsp.le
  cases hr : i.rounding <;> simp only [roundedOutputs, hr]
  · exact ⟨htax, htip, htot, hpp⟩
  · have h1 : (0 : ℚ) ≤ ((jsRound (rawTip i) : ℤ) : ℚ) := by
      exact_mod_cast jsRound_nonneg _ htip
    exact ⟨htax, h1, by linarith, div_nonneg (by linarith) hsp.le⟩
  · have h1 : (0 : ℚ) ≤ ((jsRound (rawTotal i) : ℤ) : ℚ) := by
      exact_mod_cast jsRound_nonneg _ htot
    exact ⟨htax, le_max_left _ _, h1, div_nonneg h1 hsp.le⟩
  · have h1 : (0 : ℚ) ≤ ((jsRound (rawPerPerson i) : ℤ) : ℚ) := by
      exact_mod_cast jsRound_nonneg _ hpp
    exact ⟨htax, le_max_left _ _, mul_nonneg h1 hsp.le, h1⟩

/-- Claim C4 (amended): tax and tip are non-negative for every input
(every input j, with no restriction), and all four outputs tax, tip,
total and perPerson are non-negative for every input i whose parsed bill
is non-negative; a negative bill text drives total and perPerson
negative, as in the counterexample. -/
theorem outputs_nonneg_amended (i j : Inputs) (h : 0 ≤ numBill i) :
    (0 ≤ tax j ∧ 0 ≤ (roundedOutputs j).tip) ∧
    (0 ≤ tax i ∧ 0 ≤ (roundedOutputs i).tip ∧ 0 ≤ (roundedOutputs i).total ∧
      0 ≤ (roundedOutputs i).perPerson) :=
  ⟨⟨tax_nonneg j, tip_nonneg j⟩, outputs_nonneg_of_bill i h⟩

/-- Witness for outputs_nonneg_amended: the bill-restricted input is the
scenario bill 100, tax 10 percent, tip 20 percent, 4 people, rounding
mode total, and the unrestricted input is the negative bill -5 of the
counterexample. -/
theorem outputs_nonneg_amended_witness :
    0 ≤ numBill ⟨"100", 10, 20, 4, false, RoundingMode.total⟩ ∧
    ((0 ≤ tax ⟨"-5", 0, 0, 1, false, RoundingMode.none⟩ ∧
      0 ≤ (roundedOutputs ⟨"-5", 0, 0, 1, false, RoundingMode.none⟩).tip) ∧
    (0 ≤ tax ⟨"100", 10, 20, 4, false, RoundingMode.total⟩ ∧
      0 ≤ (roundedOutputs ⟨"100", 10, 20, 4, false, RoundingMode.total⟩).tip ∧
      0 ≤ (roundedOutputs ⟨"100", 10, 20, 4, false, RoundingMode.total⟩).total ∧
      0 ≤ (roundedOutputs ⟨"100", 10, 20, 4, false, RoundingMode.total⟩).perPerson)) :=
  ⟨by decide, outputs_nonneg_amended ⟨"100", 10, 20, 4, false, RoundingMode.total⟩
    ⟨"-5", 0, 0, 1, false, RoundingMode.none⟩ (by decide)⟩

lemma roundHalfAway_eq_of_neg (q : ℚ) (n : ℤ) (hq : ¬ 0 ≤ q)
    (h1 : (n : ℚ) ≤ -q + 1 / 2) (h2 : -q + 1 / 2 < n + 1) :
    roundHalfAway q = -n := by
  unfold roundHalfAway
  rw [if_neg hq, Int.floor_eq_iff.mpr ⟨h1, h2⟩]

/-- Claim C5 counterexample: the bill text -1.5 with both percentages 0
gives raw total -1.5; in rounding mode total the component displays the
total -1, while round-half-away-from-zero of -1.5 is -2, so the rounding
applied is not round-half-away-from-zero. -/
theorem round_mode_cex :
    rawTotal ⟨"-1.5", 0, 0, 1, false, RoundingMode.total⟩ = -(3 / 2) ∧
    (roundedOutputs ⟨"-1.5", 0, 0, 1, false, RoundingMode.total⟩).total = -1 ∧
    roundHalfAway (rawTotal ⟨"-1.5", 0, 0, 1, false, RoundingMode.total⟩) = -2 ∧
    (roundedOutputs ⟨"-1.5", 0, 0, 1, false, RoundingMode.total⟩).total ≠
      (roundHalfAway (rawTotal ⟨"-1.5", 0, 0, 1, false, RoundingMode.total⟩) : ℚ) := by
  have hb : numBill ⟨"-1.5", 0, 0, 1, false, RoundingMode.total⟩ = -(3 / 2) := by
    simp +decide [numBill, parseToNumber, cleanChars, jsNumber, parseSigned, parseUnsigned,
      parseTail, digitsToNat, isJsWs, infinityChars]
    norm_num
  have htax : tax ⟨"-1.5", 0, 0, 1, false, RoundingMode.total⟩ = 0 := by
    simp [tax, hb]
  have hraw : rawTotal ⟨"-1.5", 0, 0, 1, false, RoundingMode.total⟩ = -(3 / 2) := by
    simp [rawTotal, rawTip, tipBase, hb, htax]
  have hr : jsRound (-(3 / 2) : ℚ) = -1 := jsRound_eq_of _ (-1) (by norm_num) (by norm_num)
  have hrha : roundHalfAway (-(3 / 2) : ℚ) = -2 :=
    roundHalfAway_eq_of_neg _ 2 (by norm_num) (by norm_num) (by norm_num)
  have h1 : (roundedOutputs ⟨"-1.5", 0, 0, 1, false, RoundingMode.total⟩).total = -1 := by
    simp [roundedOutputs, hraw, hr]
  refine ⟨hraw, h1, by rw [hraw, hrha], ?_⟩
  rw [h1, hraw, hrha]
  norm_num

/-- Claim C5 (amended): the rounding function applied in the rounding
branches is round-half-up toward positive infinity — on every
non-negative quantity it is within one half below and strictly within one
half above its argument, and coincides with round-half-away-from-zero;
on negative ties it rounds toward positive infinity instead, as in the
counterexample. -/
theorem jsRound_half_up (q : ℚ) (h : 0 ≤ q) :
    ((jsRound q : ℤ) : ℚ) - q ≤ 1 / 2 ∧ q - ((jsRound q : ℤ) : ℚ) < 1 / 2 ∧
      jsRound q = roundHalfAway q := by
  unfold jsRound roundHalfAway
  rw [if_pos h]
  refine ⟨?_, ?_, rfl⟩
  · have h1 := Int.floor_le (q + 1 / 2)
    linarith
  · have h2 := Int.lt_floor_add_one (q + 1 / 2)
    push_cast at h2
    linarith

/-- Witness for jsRound_half_up at the tie three halves. -/
theorem jsRound_half_up_witness :
    0 ≤ (3 / 2 : ℚ) ∧
      (((jsRound (3 / 2 : ℚ) : ℤ) : ℚ) - 3 / 2 ≤ 1 / 2 ∧
        3 / 2 - ((jsRound (3 / 2 : ℚ) : ℤ) : ℚ) < 1 / 2 ∧
        jsRound (3 / 2 : ℚ) = roundHalfAway (3 / 2 : ℚ)) :=
  ⟨by norm_num, jsRound_half_up (3 / 2) (by norm_num)⟩

/-- Claim C6 counterexample: the malformed text $12.5x0 does not resolve
to 0 — it sanitizes to 12.50 and resolves to 12.5; and the source keeps
every minus sign, not only a single leading one, so the text 1-2 resolves
to 0 while the sanitize-then-parse the claim describes yields 12. -/
theorem parseToNumber_cex :
    parseToNumber "$12.5x0" = 25 / 2 ∧ parseToNumber "$12.5x0" ≠ 0 ∧
    parseToNumber "1-2" = 0 ∧ specParseClaim "1-2" = 12 ∧
    parseToNumber "1-2" ≠ specParseClaim "1-2" := by
  have h1 : parseToNumber "$12.5x0" = 25 / 2 := by
    simp +decide [parseToNumber, cleanChars, jsNumber, parseSigned, parseUnsigned, parseTail,
      digitsToNat, isJsWs, infinityChars]
    norm_num
  have h2 : parseToNumber "1-2" = 0 := by decide
  have h3 : specParseClaim "1-2" = 12 := by decide
  exact ⟨h1, by rw [h1]; norm_num, h2, h3, by rw [h2, h3]; norm_num⟩

/-- Claim C6 (amended): for every raw bill text, parseToNumber equals the
pipeline that keeps every digit, minus sign and period of the text (not
only a single leading minus), parses the remainder as a decimal number,
and resolves any non-finite result to 0, never throwing; the empty
string and the text of two minuses resolve to 0, while $12.5x0 resolves
to 12.5. -/
theorem parseToNumber_amended (v : String) :
    parseToNumber v = specParseAmended v ∧ parseToNumber "" = 0 ∧
      parseToNumber "--" = 0 ∧ parseToNumber "$12.5x0" = 25 / 2 := by
  have hfun : (fun c : Char => c = '-' || c = '.' || c.isDigit) =
      (fun c : Char => c.isDigit || c = '.' || c = '-') := by
    funext c
    cases hd : c.isDigit <;> by_cases h1 : c = '.' <;> by_cases h2 : c = '-' <;>
      simp [hd, h1, h2]
  have hmain : parseToNumber v = specParseAmended v := by
    have harg : String.mk (v.toList.filter fun c : Char => c = '-' || c = '.' || c.isDigit) =
        cleanChars v := by rw [hfun]; rfl
    by_cases hv : v = ""
    · subst hv
      decide
    · unfold specParseAmended parseToNumber
      rw [if_neg hv, harg]
      cases hj : jsNumber (cleanChars v) <;> simp [hj]
  refine ⟨hmain, by decide, by decide, ?_⟩
  simp +decide [parseToNumber, cleanChars, jsNumber, parseSigned, parseUnsigned, parseTail,
    digitsToNat, isJsWs, infinityChars]
  norm_num

/-- Claim C7: the computation is a total function in which invalid
numeric input degrades to defaults — the people count is always an
integer at least 1 and is max(1, floor(people or 1)); people inputs 0,
-5, the unparsable text abc and the fractional 3.5 give counts 1, 1, 1
and 3; unparsable text gives 0 for the monetary and percentage fields. -/
theorem never_throws_defaults (q : ℚ) :
    1 ≤ safePeopleOf q ∧ safePeopleOf q = max 1 ⌊jsOr q 1⌋ ∧
    safePeopleOf 0 = 1 ∧ safePeopleOf (-5) = 1 ∧
    safeNumber "abc" 1 = 1 ∧ safePeopleOf (safeNumber "abc" 1) = 1 ∧
    safePeopleOf (7 / 2) = 3 ∧
    parseToNumber "abc" = 0 ∧ safeNumber "abc" 0 = 0 := by
  have h0 : safePeopleOf 0 = 1 := by
    simp [safePeopleOf, jsOr]
  have h1 : safePeopleOf 1 = 1 := by
    simp [safePeopleOf, jsOr]
  have hm5 : safePeopleOf (-5) = 1 := by
    have hne : (-5 : ℚ) ≠ 0 := by norm_num
    have hf : ⌊(-5 : ℚ)⌋ = (-5 : ℤ) := Int.floor_eq_iff.mpr (by norm_num)
    simp [safePeopleOf, jsOr, hne, hf]
  have habc : safeNumber "abc" 1 = 1 := by decide
  have h72 : safePeopleOf (7 / 2) = 3 := by
    have hne : (7 / 2 : ℚ) ≠ 0 := by norm_num
    have hf : ⌊(7 / 2 : ℚ)⌋ = (3 : ℤ) := Int.floor_eq_iff.mpr (by norm_num)
    simp [safePeopleOf, jsOr, hne, hf]
  exact ⟨le_max_left _ _, rfl, h0, hm5, habc, by rw [habc]; exact h1, h72,
    by decide, by decide⟩

/-- Claim C8 counterexample: the locale string constructor is not in the
table, yet the lookup map[locale] finds the inherited, truthy
Object.prototype.constructor, so guessCurrency returns that inherited
value and not the string USD. -/
theorem guessCurrency_cex :
    guessCurrency "constructor" = JsLookup.inherited "constructor" ∧
    guessCurrency "constructor" ≠ JsLookup.str "USD" := by decide

/-- Claim C8 (amended): guessCurrency returns exactly the thirteen
tabulated ISO codes for the thirteen table keys, returns the inherited
truthy value (not a currency string) for each of the twelve
Object.prototype property names, and returns USD for every other
locale. -/
theorem guessCurrency_spec (l : String)
    (h1 : l ∉ (["en-US", "en-GB", "en-CA", "fr-CA", "en-AU", "en-NZ", "en-IN", "hi-IN",
      "ja-JP", "de-DE", "fr-FR", "es-ES", "it-IT"] : List String))
    (h2 : l ∉ objectProtoProps) :
    guessCurrency "en-US" = JsLookup.str "USD" ∧ guessCurrency "en-GB" = JsLookup.str "GBP" ∧
    guessCurrency "en-CA" = JsLookup.str "CAD" ∧ guessCurrency "fr-CA" = JsLookup.str "CAD" ∧
    guessCurrency "en-AU" = JsLookup.str "AUD" ∧ guessCurrency "en-NZ" = JsLookup.str "NZD" ∧
    guessCurrency "en-IN" = JsLookup.str "INR" ∧ guessCurrency "hi-IN" = JsLookup.str "INR" ∧
    guessCurrency "ja-JP" = JsLookup.str "JPY" ∧ guessCurrency "de-DE" = JsLookup.str "EUR" ∧
    guessCurrency "fr-FR" = JsLookup.str "EUR" ∧ guessCurrency "es-ES" = JsLookup.str "EUR" ∧
    guessCurrency "it-IT" = JsLookup.str "EUR" ∧
    (∀ p ∈ objectProtoProps, guessCurrency p = JsLookup.inherited p) ∧
    guessCurrency l = JsLookup.str "USD" := by
  simp only [List.mem_cons, List.not_mem_nil, or_false, not_or] at h1
  obtain ⟨g1, g2, g3, g4, g5, g6, g7, g8, g9, g10, g11, g12, g13⟩ := h1
  refine ⟨by decide, by decide, by decide, by decide, by decide, by decide, by decide,
    by decide, by decide, by decide, by decide, by decide, by decide, by decide, ?_⟩
  have hm : currencyMapLookup l = JsLookup.undef := by
    unfold currencyMapLookup
    rw [if_neg g1, if_neg g2, if_neg g3, if_neg g4, if_neg g5, if_neg g6, if_neg g7,
      if_neg g8, if_neg g9, if_neg g10, if_neg g11, if_neg g12, if_neg g13, if_neg h2]
  unfold guessCurrency
  rw [hm]
  decide

/-- Witness for guessCurrency_spec at the unmapped locale xx-XX. -/
theorem guessCurrency_spec_witness :
    "xx-XX" ∉ (["en-US", "en-GB", "en-CA", "fr-CA", "en-AU", "en-NZ", "en-IN", "hi-IN",
      "ja-JP", "de-DE", "fr-FR", "es-ES", "it-IT"] : List String) ∧
    "xx-XX" ∉ objectProtoProps ∧
    (guessCurrency "en-US" = JsLookup.str "USD" ∧ guessCurrency "en-GB" = JsLookup.str "GBP" ∧
    guessCurrency "en-CA" = JsLookup.str "CAD" ∧ guessCurrency "fr-CA" = JsLookup.str "CAD" ∧
    guessCurrency "en-AU" = JsLookup.str "AUD" ∧ guessCurrency "en-NZ" = JsLookup.str "NZD" ∧
    guessCurrency "en-IN" = JsLookup.str "INR" ∧ guessCurrency "hi-IN" = JsLookup.str "INR" ∧
    guessCurrency "ja-JP" = JsLookup.str "JPY" ∧ guessCurrency "de-DE" = JsLookup.str "EUR" ∧
    guessCurrency "fr-FR" = JsLookup.str "EUR" ∧ guessCurrency "es-ES" = JsLookup.str "EUR" ∧
    guessCurrency "it-IT" = JsLookup.str "EUR" ∧
    (∀ p ∈ objectProtoProps, guessCurrency p = JsLookup.inherited p) ∧
    guessCurrency "xx-XX" = JsLookup.str "USD") :=
  ⟨by decide, by decide, guessCurrency_spec "xx-XX" (by decide) (by decide)⟩

/-! ## Equivalence of the two versions of the computation -/

lemma clamp_eq_max (x : ℚ) (h : x ≤ maxSafeInteger) : clamp x 0 maxSafeInteger = max 0 x := by
  unfold clamp
  rw [max_comm]
  exact min_eq_left (max_le (by norm_num [maxSafeInteger]) h)

lemma tax2_eq (i : Inputs) (h1 : numBill i * (i.taxPercent / 100) ≤ maxSafeInteger) :
    tax2 i = tax i := by
  unfold tax2 tax
  exact clamp_eq_max _ h1

lemma tipBase2_eq (i : Inputs) (h1 : numBill i * (i.taxPercent / 100) ≤ maxSafeInteger) :
    tipBase2 i = tipBase i := by
  unfold tipBase2 tipBase
  rw [tax2_eq i h1]

lemma rawTip2_eq (i : Inputs) (h1 : numBill i * (i.taxPercent / 100) ≤ maxSafeInteger)
    (h2 : tipBase i * (i.tipPercent / 100) ≤ maxSafeInteger) :
    rawTip2 i = rawTip i := by
  unfold rawTip2 rawTip
  rw [tipBase2_eq i h1]
  exact clamp_eq_max _ h2

lemma rawTotal2_eq (i : Inputs) (h1 : numBill i * (i.taxPercent / 100) ≤ maxSafeInteger)
    (h2 : tipBase i * (i.tipPercent / 100) ≤ maxSafeInteger) :
    rawTotal2 i = rawTotal i := by
  unfold rawTotal2 rawTotal
  rw [tax2_eq i h1, rawTip2_eq i h1 h2]

lemma rawPerPerson2_eq (i : Inputs) (h1 : numBill i * (i.taxPercent / 100) ≤ maxSafeInteger)
    (h2 : tipBase i * (i.tipPercent / 100) ≤ maxSafeInteger) :
    rawPerPerson2 i = rawPerPerson i := by
  unfold rawPerPerson2 rawPerPerson
  rw [rawTotal2_eq i h1 h2]

lemma roundedOutputs2_eq (i : Inputs) (h1 : numBill i * (i.taxPercent / 100) ≤ maxSafeInteger)
    (h2 : tipBase i * (i.tipPercent / 100) ≤ maxSafeInteger) :
    roundedOutputs2 i = roundedOutputs i := by
  unfold roundedOutputs2 roundedOutputs
  cases hr : i.rounding <;>
    simp [tax2_eq i h1, rawTip2_eq i h1 h2, rawTotal2_eq i h1 h2, rawPerPerson2_eq i h1 h2]

/-- Claim C9 counterexample: at bill text 1 with tax percentage 10^18,
the first version computes the tax 10^16 while the second clamps it to
Number.MAX_SAFE_INTEGER, and the displayed totals differ. -/
theorem versions_equiv_cex :
    tax ⟨"1", 1000000000000000000, 0, 1, false, RoundingMode.none⟩ = 10000000000000000 ∧
    tax2 ⟨"1", 1000000000000000000, 0, 1, false, RoundingMode.none⟩ = 9007199254740991 ∧
    (roundedOutputs ⟨"1", 1000000000000000000, 0, 1, false, RoundingMode.none⟩).total ≠
      (roundedOutputs2 ⟨"1", 1000000000000000000, 0, 1, false, RoundingMode.none⟩).total := by
  have hb : numBill ⟨"1", 1000000000000000000, 0, 1, false, RoundingMode.none⟩ = 1 := by decide
  have htax : tax ⟨"1", 1000000000000000000, 0, 1, false, RoundingMode.none⟩ =
      10000000000000000 := by
    simp [tax, hb]
    norm_num [max_def]
  have htax2 : tax2 ⟨"1", 1000000000000000000, 0, 1, false, RoundingMode.none⟩ =
      9007199254740991 := by
    simp [tax2, clamp, maxSafeInteger, hb]
    norm_num [max_def, min_def]
  have htip : rawTip ⟨"1", 1000000000000000000, 0, 1, false, RoundingMode.none⟩ = 0 := by
    simp [rawTip, tipBase, hb, htax]
  have htip2 : rawTip2 ⟨"1", 1000000000000000000, 0, 1, false, RoundingMode.none⟩ = 0 := by
    simp [rawTip2, tipBase2, clamp, hb, htax2]
    norm_num [max_def, min_def, maxSafeInteger]
  have h1 : (roundedOutputs ⟨"1", 1000000000000000000, 0, 1, false, RoundingMode.none⟩).total =
      10000000000000001 := by
    simp [roundedOutputs, rawTotal, hb, htax, htip]
    norm_num
  have h2 : (roundedOutputs2 ⟨"1", 1000000000000000000, 0, 1, false, RoundingMode.none⟩).total =
      9007199254740992 := by
    simp [roundedOutputs2, rawTotal2, hb, htax2, htip2]
    norm_num
  exact ⟨htax, htax2, by rw [h1, h2]; norm_num⟩

/-- Claim C9 (amended): the two versions of the computation produce
identical outputs tax, tip, total, perPerson and effectiveTipPercent for
every input and rounding mode in which the unclamped tax and raw tip do
not exceed Number.MAX_SAFE_INTEGER; beyond that bound the second version
clamps and the outputs differ, as in the counterexample. -/
theorem versions_equiv_amended (i : Inputs)
    (h1 : numBill i * (i.taxPercent / 100) ≤ maxSafeInteger)
    (h2 : tipBase i * (i.tipPercent / 100) ≤ maxSafeInteger) :
    tax2 i = tax i ∧ roundedOutputs2 i = roundedOutputs i ∧
      effectiveTipPercent2 i = effectiveTipPercent i := by
  refine ⟨tax2_eq i h1, roundedOutputs2_eq i h1 h2, ?_⟩
  unfold effectiveTipPercent2 effectiveTipPercent
  rw [tipBase2_eq i h1, roundedOutputs2_eq i h1 h2]

/-- Witness for versions_equiv_amended at bill 100, tax 10 percent, tip
20 percent, 4 people, no rounding. -/
theorem versions_equiv_amended_witness :
    numBill ⟨"100", 10, 20, 4, false, RoundingMode.none⟩ *
      ((⟨"100", 10, 20, 4, false, RoundingMode.none⟩ : Inputs).taxPercent / 100) ≤
      maxSafeInteger ∧
    tipBase ⟨"100", 10, 20, 4, false, RoundingMode.none⟩ *
      ((⟨"100", 10, 20, 4, false, RoundingMode.none⟩ : Inputs).tipPercent / 100) ≤
      maxSafeInteger ∧
    (tax2 ⟨"100", 10, 20, 4, false, RoundingMode.none⟩ =
        tax ⟨"100", 10, 20, 4, false, RoundingMode.none⟩ ∧
      roundedOutputs2 ⟨"100", 10, 20, 4, false, RoundingMode.none⟩ =
        roundedOutputs ⟨"100", 10, 20, 4, false, RoundingMode.none⟩ ∧
      effectiveTipPercent2 ⟨"100", 10, 20, 4, false, RoundingMode.none⟩ =
        effectiveTipPercent ⟨"100", 10, 20, 4, false, RoundingMode.none⟩) := by
  have hb : numBill ⟨"100", 10, 20, 4, false, RoundingMode.none⟩ = 100 := by decide
  have hA : numBill ⟨"100", 10, 20, 4, false, RoundingMode.none⟩ *
      ((⟨"100", 10, 20, 4, false, RoundingMode.none⟩ : Inputs).taxPercent / 100) ≤
      maxSafeInteger := by
    rw [hb]
    norm_num [maxSafeInteger]
  have hB : tipBase ⟨"100", 10, 20, 4, false, RoundingMode.none⟩ *
      ((⟨"100", 10, 20, 4, false, RoundingMode.none⟩ : Inputs).tipPercent / 100) ≤
      maxSafeInteger := by
    simp only [tipBase, hb]
    norm_num [maxSafeInteger]
  exact ⟨hA, hB, versions_equiv_amended ⟨"100", 10, 20, 4, false, RoundingMode.none⟩ hA hB⟩

/-- Claim C10: with no rounding, a non-negative tip percentage and a
positive tip base, the effective tip percentage round-trips to the input
tip percentage exactly. -/
theorem effectiveTip_roundtrip (i : Inputs) (h1 : i.rounding = RoundingMode.none)
    (h2 : 0 ≤ i.tipPercent) (h3 : 0 < tipBase i) :
    effectiveTipPercent i = i.tipPercent := by
  unfold effectiveTipPercent
  rw [if_pos h3]
  simp only [roundedOutputs, h1, rawTip]
  rw [max_eq_right (mul_nonneg h3.le (div_nonneg h2 (by norm_num)))]
  have hne : tipBase i ≠ 0 := ne_of_gt h3
  field_simp
  ring

/-- Witness for effectiveTip_roundtrip at bill 100, tip 20 percent. -/
theorem effectiveTip_roundtrip_witness :
    (⟨"100", 0, 20, 1, false, RoundingMode.none⟩ : Inputs).rounding = RoundingMode.none ∧
    0 ≤ (⟨"100", 0, 20, 1, false, RoundingMode.none⟩ : Inputs).tipPercent ∧
    0 < tipBase ⟨"100", 0, 20, 1, false, RoundingMode.none⟩ ∧
    effectiveTipPercent ⟨"100", 0, 20, 1, false, RoundingMode.none⟩ =
      (⟨"100", 0, 20, 1, false, RoundingMode.none⟩ : Inputs).tipPercent :=
  ⟨rfl, by norm_num, by decide,
    effectiveTip_roundtrip ⟨"100", 0, 20, 1, false, RoundingMode.none⟩ rfl (by norm_num)
      (by decide)⟩

end TipCalc
